import Mathlib

/-!
Verification development for the crawler in `src/crawler.js`.

The file gives a shallow embedding of the crawl core: the data model of the
GraphQL response, the retry wrapper `callGithub` (built on the `async-retry`
dependency as configured at lines 77-81 of the source), and the main loop of
`main` (lines 84-177), modelled as a step function over an explicit crawl
state driven by an environment that supplies the outcome of each external
call (transport result per attempt, upsert success/failure, current time).
Timed sleeps are recorded as data rather than performed.
-/

namespace Crawler

/-- Quota snapshot returned in the `rateLimit` field of each response
(fields `limit`, `cost`, `remaining`, `resetAt`; `resetAt` is modelled as a
millisecond timestamp, the value of `new Date(rl.resetAt).getTime()`). -/
structure RateLimit where
  limit : Int
  cost : Int
  remaining : Int
  resetAt : Int
  deriving DecidableEq

/-- Repository owner: the `owner { login }` object of the GraphQL node. -/
structure Owner where
  login : String
  deriving DecidableEq

/-- A repository node as selected by the GraphQL query (lines 33-46 of the
source). `databaseId`, `stargazerCount` and `owner` may be absent (`null`),
which the crawler's normalization defaults away. -/
structure Node where
  id : String
  databaseId : Option Int
  name : String
  url : String
  stargazerCount : Option Int
  owner : Option Owner
  deriving DecidableEq

/-- One edge of the search connection. -/
structure Edge where
  node : Node
  deriving DecidableEq

/-- `pageInfo` of the search connection. `endCursor` is nullable. -/
structure PageInfo where
  endCursor : Option String
  hasNextPage : Bool
  deriving DecidableEq

/-- The `search` field of the response data. -/
structure Search where
  repositoryCount : Int
  pageInfo : PageInfo
  edges : List Edge
  deriving DecidableEq

/-- The `data` object of a GraphQL response body. `search` is an option so
that the defensive `!search` check of line 128 is representable. -/
structure GqlData where
  rateLimit : Option RateLimit
  search : Option Search
  deriving DecidableEq

/-- A GraphQL response body as seen by `main`: `errors` records whether the
body carries an `errors` array (line 106 tests only its presence), and
`data` is the payload used when it does not. -/
structure GqlResponse where
  errors : Bool
  data : GqlData
  deriving DecidableEq

/-- Outcome of one raw `axios.post` call inside `callGithub` (lines 59-66):
the promise resolves with a status and body, or rejects with an error that
either carries an HTTP response (`err.response.status`) or does not
(timeout, connection failure). -/
inductive AxiosResult where
  | resolved (status : Nat) (body : GqlResponse)
  | rejectedWithResponse (status : Nat) (msg : String)
  | rejectedNoResponse (msg : String)
  deriving DecidableEq

/-- Outcome of one execution of the function passed to `retry`
(lines 57-76): return the body, bail with an error (no further attempts),
or throw an error (retried while attempts remain). -/
inductive AttemptOutcome where
  | success (body : GqlResponse)
  | bailErr (msg : String)
  | failErr (msg : String)
  deriving DecidableEq

/-- Result of `callGithub` as observed by `main`: the resolved body, or the
rejection that the `try`/`catch` at lines 99-104 turns into a `break`. -/
inductive CallResult where
  | ok (body : GqlResponse)
  | fatal (msg : String)
  deriving DecidableEq

/-- Observable outcome of the whole retry wrapper: its result, how many
times the transport client was invoked, and the backoff delays (rounded
ms, jitter included) slept between consecutive attempts, in order. -/
structure RetryOutcome where
  result : CallResult
  attemptsMade : Nat
  delays : List Int
  deriving DecidableEq

/-- JavaScript `Math.round` on the exact rational value: round half
toward positive infinity. -/
def jsRound (x : ℚ) : Int := Int.floor (x + 1 / 2)

/-- `createTimeout` of the `retry` package (the engine under
`async-retry`): the timeout of the 0-based retry slot `i` is
`Math.round(random * Math.max(minTimeout, 1) * factor ^ i)` where
`random = Math.random() + 1` because `crawler.js` leaves `randomize`
unset and `async-retry` defaults it to true. `rand` is the
`Math.random()` draw of this slot, a rational in `[0, 1)`. The final
`Math.min` with `maxTimeout` is omitted: `async-retry` defaults
`maxTimeout` to `Infinity`. -/
def createTimeout (rand : ℚ) (minT factor i : Nat) : Int :=
  jsRound ((rand + 1) * (max (minT : ℚ) 1 * (factor : ℚ) ^ i))

/-- The `_timeouts` array of `retry.operation`: one `createTimeout` per
retry slot (each with its own `Math.random()` draw `rand i`), sorted
ascending, as `retry.timeouts` builds it. Delays are consumed from the
front, one per failed attempt. -/
def retryTimeouts (rand : Nat → ℚ) (minT factor retries : Nat) : List Int :=
  ((List.range retries).map (fun i => createTimeout (rand i) minT factor i)).mergeSort

/-- One execution of the function passed to `retry` (lines 57-76): a 2xx
response whose status is `>= 500` is thrown (and, carrying no
`err.response`, is a plain retryable failure); a rejection whose response
status is 401 bails with the fatal `Unauthorized - check token` error; any
other rejection is rethrown and retried. -/
def githubAttempt : AxiosResult → AttemptOutcome
  | AxiosResult.resolved status body =>
      if 500 ≤ status then AttemptOutcome.failErr "Server error"
      else AttemptOutcome.success body
  | AxiosResult.rejectedWithResponse status msg =>
      if status = 401 then AttemptOutcome.bailErr "Unauthorized - check token"
      else AttemptOutcome.failErr msg
  | AxiosResult.rejectedNoResponse msg => AttemptOutcome.failErr msg

/-- The `async-retry` combinator (external dependency) over the list of
per-attempt outcomes it would observe: success resolves at once; bail
aborts with its error and no further attempts; a failure on the last
allowed attempt surfaces that last error; an earlier failure sleeps the
next timeout of the operation's precomputed array (`timeouts`, indexed by
the number of prior retries) and moves to the next attempt. `attempt` is
the 1-based index of the current attempt, so the delay consumed after a
failed attempt `k` is slot `k - 1`. -/
def runRetry (timeouts : List Int) (attempt : Nat) : List AttemptOutcome → RetryOutcome
  | [] => { result := CallResult.fatal "Aborted", attemptsMade := 0, delays := [] }
  | o :: rest =>
    match o with
    | AttemptOutcome.success body =>
        { result := CallResult.ok body, attemptsMade := 1, delays := [] }
    | AttemptOutcome.bailErr msg =>
        { result := CallResult.fatal msg, attemptsMade := 1, delays := [] }
    | AttemptOutcome.failErr msg =>
      match rest with
      | [] => { result := CallResult.fatal msg, attemptsMade := 1, delays := [] }
      | _ :: _ =>
        let r := runRetry timeouts (attempt + 1) rest
        { result := r.result
        , attemptsMade := 1 + r.attemptsMade
        , delays := timeouts.getD (attempt - 1) 0 :: r.delays }

/-- `callGithub` (lines 55-82): the retry wrapper configured with
`retries: 5` (one initial attempt plus up to 5 retries, hence at most 6
transport invocations), `minTimeout: 1000`, `factor: 2`, and the
`async-retry` defaults `randomize: true`, `maxTimeout: Infinity` for the
unset options. The environment supplies the transport outcome of attempt
`k` (1-based) through `env` and the `Math.random()` jitter draw of retry
slot `i` (0-based, each in `[0, 1)`) through `rand`. -/
def callGithub (env : Nat → AxiosResult) (rand : Nat → ℚ) : RetryOutcome :=
  runRetry (retryTimeouts rand 1000 2 5) 1
    [ githubAttempt (env 1), githubAttempt (env 2), githubAttempt (env 3)
    , githubAttempt (env 4), githubAttempt (env 5), githubAttempt (env 6) ]

/-- Crawl state owned by the loop in `main`: cumulative `collected` count,
pagination cursor `after`, and the `page` counter. -/
structure CrawlState where
  collected : Nat
  after : Option String
  page : Nat
  deriving DecidableEq

/-- Environment of one loop iteration: the outcome of `callGithub`, whether
`upsertRepos` succeeds if invoked, and the value of `Date.now()` at the
rate-limit check. -/
structure IterEnv where
  resp : CallResult
  upsertOk : Bool
  now : Int
  deriving DecidableEq

/-- Normalized record handed to the persistence sink (the object literal at
lines 135-142). -/
structure Repo where
  repo_node_id : String
  repo_db_id : Option Int
  name : String
  owner : Option String
  stars : Int
  url : String
  deriving DecidableEq

/-- Observable outcome of one loop iteration: the crawl state at the end of
the body, whether the body executed `break`, the sleeps performed (ms, in
order), and the batch handed to `upsertRepos` if the sink was invoked. -/
structure IterOutcome where
  state : CrawlState
  exit : Bool
  sleeps : List Int
  upserted : Option (List Repo)
  deriving DecidableEq

/-- JavaScript falsiness of the nullable cursor string, as tested by
`if (!after)` at line 167: null/undefined and the empty string are falsy. -/
def jsStrFalsy : Option String → Bool
  | none => true
  | some s => s.isEmpty

/-- Normalization of one edge (lines 133-143): stable identity is
`node.id`; `databaseId ?? null`, `owner?.login ?? null`,
`stargazerCount ?? 0`. -/
def normalizeEdge (e : Edge) : Repo :=
  { repo_node_id := e.node.id
  , repo_db_id := e.node.databaseId
  , name := e.node.name
  , owner := e.node.owner.map Owner.login
  , stars := e.node.stargazerCount.getD 0
  , url := e.node.url }

/-- Processing of the `search` part of a response (lines 127-167), reached
when the body has no errors and the rate-limit governor lets the iteration
proceed: break on a missing search object or an empty edge list; otherwise
normalize, upsert (on failure: collected unchanged, sleep 3000), then set
`after` to `endCursor`, break if `hasNextPage` is false, sleep 200, and
break if the new cursor is falsy. -/
def processSearch (s : CrawlState) (d : GqlData) (upsertOk : Bool) : IterOutcome :=
  match d.search with
  | none => { state := s, exit := true, sleeps := [], upserted := none }
  | some sr =>
    match sr.edges with
    | [] => { state := s, exit := true, sleeps := [], upserted := none }
    | _ :: _ =>
      let repos := sr.edges.map normalizeEdge
      let collected1 := if upsertOk then s.collected + repos.length else s.collected
      let sleeps1 : List Int := if upsertOk then [] else [3000]
      let s1 : CrawlState :=
        { collected := collected1, after := sr.pageInfo.endCursor, page := s.page }
      if sr.pageInfo.hasNextPage = false then
        { state := s1, exit := true, sleeps := sleeps1, upserted := some repos }
      else if jsStrFalsy s1.after then
        { state := s1, exit := true, sleeps := sleeps1 ++ [200], upserted := some repos }
      else
        { state := s1, exit := false, sleeps := sleeps1 ++ [200], upserted := some repos }

/-- One iteration of the `while` body of `main` (lines 93-168): increment
the page counter, break on a fatal transport error, sleep 5000 and continue
on a body with GraphQL errors, sleep `max 1000 (resetAt - now + 2000)` and
continue on a low quota snapshot (`remaining <= 10`), otherwise process the
search result. -/
def stepIter (s0 : CrawlState) (e : IterEnv) : IterOutcome :=
  let s : CrawlState :=
    { collected := s0.collected, after := s0.after, page := s0.page + 1 }
  match e.resp with
  | CallResult.fatal _ =>
      { state := s, exit := true, sleeps := [], upserted := none }
  | CallResult.ok body =>
    if body.errors then
      { state := s, exit := false, sleeps := [5000], upserted := none }
    else
      match body.data.rateLimit with
      | some rl =>
        if rl.remaining ≤ 10 then
          { state := s, exit := false
          , sleeps := [max 1000 (rl.resetAt - e.now + 2000)], upserted := none }
        else processSearch s body.data e.upsertOk
      | none => processSearch s body.data e.upsertOk

/-- How a finite run of the loop ended: the `while` condition
`collected < TARGET_REPOS` became false (`targetReached`), the body
executed `break` (`broke`), or the supplied trace of iteration
environments ran out while the loop still wanted to continue
(`outOfEnv`, a truncated observation). -/
inductive RunExit where
  | targetReached
  | broke
  | outOfEnv
  deriving DecidableEq

/-- Final state and exit kind of a finite run of the loop. -/
structure RunResult where
  state : CrawlState
  exit : RunExit
  deriving DecidableEq

/-- The `while (collected < TARGET_REPOS)` loop of `main` (lines 93-168)
over a finite trace of iteration environments. -/
def runLoop (target : Nat) : CrawlState → List IterEnv → RunResult
  | s, [] =>
    if s.collected < target then { state := s, exit := RunExit.outOfEnv }
    else { state := s, exit := RunExit.targetReached }
  | s, e :: es =>
    if s.collected < target then
      let o := stepIter s e
      if o.exit then { state := o.state, exit := RunExit.broke }
      else runLoop target o.state es
    else { state := s, exit := RunExit.targetReached }

/-- Environment of a whole `main` execution: whether `ensureSchema`
resolves, the per-iteration environments, and whether `closePool` resolves. -/
structure MainEnv where
  schemaOk : Bool
  iters : List IterEnv
  closeOk : Bool
  deriving DecidableEq

/-- Observable outcome of `main().catch(...)` (lines 84-177): the process
exit code (0 when `main` resolves, 1 when the top-level catch fires) and
whether `closePool` was invoked before the process ended. -/
structure MainOutcome where
  exitCode : Nat
  closeCalled : Bool
  finalCollected : Option Nat
  deriving DecidableEq

/-- `main` plus the top-level catch (lines 84-177): `ensureSchema` failure
rejects `main` before the loop, so `closePool` is never reached and the
process exits 1. Otherwise the loop runs to its terminal state (every
transport fatal inside it is caught and turned into `break`), `closePool`
is invoked, and the process exits 0 unless `closePool` itself rejects. -/
def mainRun (target : Nat) (env : MainEnv) : MainOutcome :=
  if env.schemaOk = false then
    { exitCode := 1, closeCalled := false, finalCollected := none }
  else
    let r := runLoop target { collected := 0, after := none, page := 0 } env.iters
    if env.closeOk then
      { exitCode := 0, closeCalled := true, finalCollected := some r.state.collected }
    else
      { exitCode := 1, closeCalled := true, finalCollected := some r.state.collected }

/-- `PAGE_SIZE` (line 15): maximum records per search page. -/
def PAGE_SIZE : Nat := 100

/-- Remote-contract bound (spec section 6: `first <= 100` and the service
returns at most `first` edges): every successful body in the trace carries
at most `PAGE_SIZE` edges. -/
def pageBounded (e : IterEnv) : Prop :=
  ∀ body sr, e.resp = CallResult.ok body → body.data.search = some sr →
    sr.edges.length ≤ PAGE_SIZE

/-- Whether the rate-limit guard of lines 115-124 lets the iteration fall
through to page processing: the snapshot is absent, or `remaining > 10`. -/
def rlProceeds : Option RateLimit → Bool
  | none => true
  | some rl => decide (10 < rl.remaining)

/-! ### C1: behaviour on persistence (upsert) failure -/

/-- Concrete iteration input for C1: the crawl sits at cursor `"A"`, the
response is error-free with no quota snapshot, carries one edge, end cursor
`"B"`, `hasNextPage` true, and the upsert fails. -/
def c1State : CrawlState := { collected := 0, after := some "A", page := 0 }

/-- The single node of the C1 page. -/
def c1Node : Node :=
  { id := "n1", databaseId := some 1, name := "r", url := "u"
  , stargazerCount := some 5, owner := some { login := "o" } }

/-- The C1 response body. -/
def c1Body : GqlResponse :=
  { errors := false
  , data :=
    { rateLimit := none
    , search := some (
      { repositoryCount := 1
      , pageInfo := { endCursor := some "B", hasNextPage := true }
      , edges := [{ node := c1Node }] } : Search) } }

/-- C1 (code_bug evidence). On an iteration whose batch upsert fails, the
code does sleep 3000 ms and does leave `collected` unchanged, but — lacking
a `continue` in the `catch` at lines 150-154 — it falls through to line 157
and advances `after` to the response's `endCursor`: starting from cursor
`"A"` the state after the iteration holds cursor `"B"`, so the next remote
request uses the advanced cursor and the failed batch is never retried,
contradicting both the claim and the code's own comment
(`if DB fails, wait and retry next iteration`). -/
theorem c1_upsert_failure_advances_cursor :
    (stepIter c1State { resp := CallResult.ok c1Body, upsertOk := false, now := 0 }).state.collected
      = 0 ∧
    (stepIter c1State { resp := CallResult.ok c1Body, upsertOk := false, now := 0 }).sleeps
      = [3000, 200] ∧
    (stepIter c1State { resp := CallResult.ok c1Body, upsertOk := false, now := 0 }).state.after
      = some "B" ∧
    c1State.after = some "A" ∧
    (stepIter c1State { resp := CallResult.ok c1Body, upsertOk := false, now := 0 }).exit
      = false := by
  decide

/-! ### C2: process exit codes -/

/-- Concrete main environment for C2: schema bootstrap and pool close both
succeed, and the only iteration's transport call fails fatally with the
unauthorized error (the result `callGithub` rejects with after a 401 bail). -/
def c2Env : MainEnv :=
  { schemaOk := true
  , iters := [{ resp := CallResult.fatal "Unauthorized - check token", upsertOk := true, now := 0 }]
  , closeOk := true }

/-- C2 counterexample. A run whose crawl is aborted by an unauthorized
transport failure (the loop exits via `break` on the fatal call result)
nevertheless ends on the graceful path with exit code 0: the `catch` at
lines 101-104 only breaks the loop, after which `main` resolves normally.
The claim that such a run terminates with a non-zero exit code is false. -/
theorem c2_fatal_abort_exits_zero :
    (runLoop 100 { collected := 0, after := none, page := 0 } c2Env.iters).exit
      = RunExit.broke ∧
    (mainRun 100 c2Env).exitCode = 0 := by
  decide

/-- C2 (amended). The process exit code is 1 exactly when `ensureSchema`
or `closePool` rejects (the only uncaught top-level failures); every
transport failure — unauthorized or retry-exhausted included — is caught
inside the loop, turned into `break`, and leaves the process on the
code-0 graceful-completion path. -/
theorem c2_exit_code_characterization (target : Nat) (env : MainEnv) :
    (mainRun target env).exitCode = 1 ↔ (env.schemaOk = false ∨ env.closeOk = false) := by
  cases hs : env.schemaOk <;> cases hc : env.closeOk <;>
    simp [mainRun, hs, hc]

/-! ### C3: resource release on exit paths -/

/-- Concrete main environment for C3: `ensureSchema` rejects. -/
def c3Env : MainEnv := { schemaOk := false, iters := [], closeOk := true }

/-- C3 counterexample. When `ensureSchema` rejects, `main` rejects before
line 171 is reached: the process ends (exit code 1) without `closePool`
ever being invoked, so storage resources are not released on this exit
path, contrary to the claim. -/
theorem c3_schema_failure_skips_close :
    (mainRun 5 c3Env).closeCalled = false ∧ (mainRun 5 c3Env).exitCode = 1 := by
  decide

/-- C3 (amended). `closePool` is invoked exactly on the runs in which
`ensureSchema` succeeded: the loop itself cannot escape `main` (its fatal
paths are `break`s), so after a successful bootstrap every termination
reaches line 171; but an exception before the loop (an `ensureSchema`
rejection) ends the process without releasing storage resources, because
`main` has no `finally` block. -/
theorem c3_close_called_iff_schema_ok (target : Nat) (env : MainEnv) :
    (mainRun target env).closeCalled = env.schemaOk := by
  cases hs : env.schemaOk <;> cases hc : env.closeOk <;>
    simp [mainRun, hs, hc]

/-! ### C5: rate-limit governor -/

/-- C5. On any response body without errors whose quota snapshot has
`remaining <= 10`, the iteration computes the single sleep
`max 1000 (resetAt - now + 2000)` ms and then continues the loop with the
crawl state untouched except for the page counter: the cursor is not
advanced, no records are counted, nothing is upserted, and the next remote
request therefore re-uses the same cursor. -/
theorem c5_low_quota_sleeps_and_retries_same_cursor
    (s : CrawlState) (u : Bool) (now : Int) (body : GqlResponse) (rl : RateLimit)
    (herr : body.errors = false)
    (hrl : body.data.rateLimit = some rl)
    (hlow : rl.remaining ≤ 10) :
    stepIter s { resp := CallResult.ok body, upsertOk := u, now := now } =
      { state := { collected := s.collected, after := s.after, page := s.page + 1 }
      , exit := false
      , sleeps := [max 1000 (rl.resetAt - now + 2000)]
      , upserted := none } := by
  simp [stepIter, herr, hrl, hlow]

/-- A sample repository node used by witness inputs. -/
def wNode : Node :=
  { id := "n2", databaseId := some 2, name := "w", url := "wu"
  , stargazerCount := some 3, owner := some { login := "wo" } }

/-- Concrete inputs for the C5 witness, following the spec scenario: quota
snapshot with `remaining = 5` and `resetAt` 30 s after `now`. -/
def c5State : CrawlState := { collected := 40, after := some "cur", page := 3 }

/-- The C5 witness response body. -/
def c5Body : GqlResponse :=
  { errors := false
  , data :=
    { rateLimit := some { limit := 5000, cost := 1, remaining := 5, resetAt := 30000 }
    , search := some (
      { repositoryCount := 9
      , pageInfo := { endCursor := some "next", hasNextPage := true }
      , edges := [{ node := wNode }] } : Search) } }

/-- C5 witness: at the concrete low-quota input the iteration sleeps
`max 1000 (30000 - 0 + 2000)` ms (32 s) and keeps cursor `"cur"` and the
collected count 40. -/
theorem c5_witness :
    stepIter c5State { resp := CallResult.ok c5Body, upsertOk := true, now := 0 } =
      { state := { collected := 40, after := some "cur", page := 3 + 1 }
      , exit := false
      , sleeps := [max 1000 ((30000 : Int) - 0 + 2000)]
      , upserted := none } :=
  c5_low_quota_sleeps_and_retries_same_cursor c5State true 0 c5Body
    { limit := 5000, cost := 1, remaining := 5, resetAt := 30000 }
    rfl rfl (by decide)

/-! ### C6: empty page terminates the crawl -/

/-- C6. On any response body without errors that the rate-limit guard lets
through and whose search result carries zero record envelopes, the loop
body breaks at once: no batch is handed to the persistence sink, no sleep
is performed, and the cursor and collected count are left untouched — for
every value of `hasNextPage` (the page-info of `sr` is arbitrary). -/
theorem c6_empty_page_terminates
    (s : CrawlState) (u : Bool) (now : Int) (body : GqlResponse) (sr : Search)
    (herr : body.errors = false)
    (hrl : rlProceeds body.data.rateLimit = true)
    (hsr : body.data.search = some sr)
    (hempty : sr.edges = []) :
    stepIter s { resp := CallResult.ok body, upsertOk := u, now := now } =
      { state := { collected := s.collected, after := s.after, page := s.page + 1 }
      , exit := true
      , sleeps := []
      , upserted := none } := by
  cases hopt : body.data.rateLimit with
  | none => simp [stepIter, herr, hopt, processSearch, hsr, hempty]
  | some rl =>
    have hgt : ¬ rl.remaining ≤ 10 := by
      have := hrl
      rw [hopt] at this
      simp [rlProceeds] at this
      omega
    simp [stepIter, herr, hopt, hgt, processSearch, hsr, hempty]

/-- Concrete inputs for the C6 witness: a healthy quota snapshot, zero
edges, and `hasNextPage = true`. -/
def c6Body : GqlResponse :=
  { errors := false
  , data :=
    { rateLimit := some { limit := 5000, cost := 1, remaining := 4999, resetAt := 0 }
    , search := some (
      { repositoryCount := 0
      , pageInfo := { endCursor := some "X", hasNextPage := true }
      , edges := [] } : Search) } }

/-- C6 witness: at the concrete zero-edge input with `hasNextPage = true`
the iteration breaks with state, cursor and collected count untouched. -/
theorem c6_witness :
    stepIter { collected := 7, after := some "C", page := 2 }
        { resp := CallResult.ok c6Body, upsertOk := true, now := 0 } =
      { state := { collected := 7, after := some "C", page := 2 + 1 }
      , exit := true
      , sleeps := []
      , upserted := none } :=
  c6_empty_page_terminates { collected := 7, after := some "C", page := 2 } true 0 c6Body
    { repositoryCount := 0
    , pageInfo := { endCursor := some "X", hasNextPage := true }
    , edges := [] }
    rfl (by decide) rfl rfl

/-! ### C9: absent quota snapshot skips the governor -/

/-- C9. On any response body without errors whose `rateLimit` field is
null, the iteration is exactly the page processing of the search payload:
the governor branch of lines 115-125 is skipped entirely and no
rate-limit pause can occur, whatever values an absent snapshot might have
carried. -/
theorem c9_missing_snapshot_skips_governor
    (s : CrawlState) (u : Bool) (now : Int) (body : GqlResponse)
    (herr : body.errors = false)
    (hnone : body.data.rateLimit = none) :
    stepIter s { resp := CallResult.ok body, upsertOk := u, now := now } =
      processSearch { collected := s.collected, after := s.after, page := s.page + 1 }
        body.data u := by
  simp [stepIter, herr, hnone]

/-- Concrete response body for the C9 witness: no snapshot, one edge. -/
def c9Body : GqlResponse :=
  { errors := false
  , data :=
    { rateLimit := none
    , search := some (
      { repositoryCount := 1
      , pageInfo := { endCursor := some "Y", hasNextPage := true }
      , edges := [{ node := wNode }] } : Search) } }

/-- C9 witness: at the concrete snapshot-free input the iteration equals
the page processing step directly. -/
theorem c9_witness :
    stepIter { collected := 3, after := none, page := 1 }
        { resp := CallResult.ok c9Body, upsertOk := true, now := 77 } =
      processSearch { collected := 3, after := none, page := 1 + 1 } c9Body.data true :=
  c9_missing_snapshot_skips_governor { collected := 3, after := none, page := 1 } true 77
    c9Body rfl rfl

/-! ### C10: normalization of a non-empty page -/

/-- C10. On any non-empty page that reaches processing, the batch handed
to the persistence sink is exactly the edge list mapped through
`normalizeEdge`: one record per envelope, in envelope order, and for every
index the record's stable identity is the node's `id`, the secondary
identity is the node's `databaseId` (null stays null), the owner is the
owner's `login` (null owner stays null), and the popularity score is
`stargazerCount` with absent values defaulted to 0. -/
theorem c10_normalization
    (s : CrawlState) (u : Bool) (now : Int) (body : GqlResponse) (sr : Search)
    (hd : Edge) (tl : List Edge)
    (herr : body.errors = false)
    (hrl : rlProceeds body.data.rateLimit = true)
    (hsr : body.data.search = some sr)
    (hne : sr.edges = hd :: tl) :
    (stepIter s { resp := CallResult.ok body, upsertOk := u, now := now }).upserted
      = some (sr.edges.map normalizeEdge) ∧
    (sr.edges.map normalizeEdge).length = sr.edges.length ∧
    ∀ i (h : i < sr.edges.length),
      (sr.edges.map normalizeEdge).get ⟨i, by simpa using h⟩ =
        { repo_node_id := ((sr.edges.get ⟨i, h⟩).node).id
        , repo_db_id := ((sr.edges.get ⟨i, h⟩).node).databaseId
        , name := ((sr.edges.get ⟨i, h⟩).node).name
        , owner := (((sr.edges.get ⟨i, h⟩).node).owner).map Owner.login
        , stars := ((sr.edges.get ⟨i, h⟩).node).stargazerCount.getD 0
        , url := ((sr.edges.get ⟨i, h⟩).node).url } := by
  refine ⟨?_, by simp, ?_⟩
  · have hup : ∀ t : CrawlState,
        (processSearch t body.data u).upserted = some (sr.edges.map normalizeEdge) := by
      intro t
      simp only [processSearch, hsr, hne]
      split
      · rfl
      · split
        · rfl
        · rfl
    cases hopt : body.data.rateLimit with
    | none => simp [stepIter, herr, hopt, hup]
    | some rl =>
      have hgt : ¬ rl.remaining ≤ 10 := by
        have := hrl
        rw [hopt] at this
        simp [rlProceeds] at this
        omega
      simp [stepIter, herr, hopt, hgt, hup]
  · intro i h
    simp [List.get_eq_getElem, List.getElem_map, normalizeEdge]

/-- Concrete response body for the C10 witness: two edges, the second with
absent `databaseId`, `owner` and `stargazerCount` to exercise the
defaults. -/
def c10Body : GqlResponse :=
  { errors := false
  , data :=
    { rateLimit := some { limit := 5000, cost := 1, remaining := 100, resetAt := 0 }
    , search := some (
      { repositoryCount := 2
      , pageInfo := { endCursor := some "Z", hasNextPage := true }
      , edges :=
        [ { node := { id := "idA", databaseId := some 7, name := "A", url := "uA"
                    , stargazerCount := some 42, owner := some { login := "ownerA" } } }
        , { node := { id := "idB", databaseId := none, name := "B", url := "uB"
                    , stargazerCount := none, owner := none } } ] } : Search) } }

/-- The search payload of `c10Body`. -/
def c10Search : Search :=
  { repositoryCount := 2
  , pageInfo := { endCursor := some "Z", hasNextPage := true }
  , edges :=
    [ { node := { id := "idA", databaseId := some 7, name := "A", url := "uA"
                , stargazerCount := some 42, owner := some { login := "ownerA" } } }
    , { node := { id := "idB", databaseId := none, name := "B", url := "uB"
                , stargazerCount := none, owner := none } } ] }

/-- C10 witness: at the concrete two-edge input the upserted batch is the
normalized edge list; in particular the second record has null secondary
identity, null owner and popularity 0. -/
theorem c10_witness :
    (stepIter { collected := 0, after := none, page := 0 }
        { resp := CallResult.ok c10Body, upsertOk := true, now := 0 }).upserted
      = some
        [ { repo_node_id := "idA", repo_db_id := some 7, name := "A"
          , owner := some "ownerA", stars := 42, url := "uA" }
        , { repo_node_id := "idB", repo_db_id := none, name := "B"
          , owner := none, stars := 0, url := "uB" } ] :=
  (c10_normalization { collected := 0, after := none, page := 0 } true 0 c10Body c10Search
    { node := { id := "idA", databaseId := some 7, name := "A", url := "uA"
              , stargazerCount := some 42, owner := some { login := "ownerA" } } }
    [ { node := { id := "idB", databaseId := none, name := "B", url := "uB"
                , stargazerCount := none, owner := none } } ]
    rfl (by decide) rfl rfl).1

/-! ### Retry wrapper lemmas -/

/-- The retry combinator never makes more attempts than the attempt list
allows. -/
lemma runRetry_attemptsMade_le (ts : List Int) :
    ∀ (a : Nat) (l : List AttemptOutcome),
      (runRetry ts a l).attemptsMade ≤ l.length := by
  intro a l
  induction l generalizing a with
  | nil => simp [runRetry]
  | cons o rest ih =>
    cases o with
    | success body => simp [runRetry]
    | bailErr msg => simp [runRetry]
    | failErr msg =>
      cases rest with
      | nil => simp [runRetry]
      | cons o2 rest2 =>
        have h := ih (a + 1)
        simp only [runRetry, List.length_cons] at h ⊢
        omega

/-! ### C4: retry attempt cap and backoff schedule -/

/-- Normal form of one timeout slot at the crawler's configuration:
`max(minTimeout, 1)` collapses to 1000. -/
lemma createTimeout_eq (r : ℚ) (i : Nat) :
    createTimeout r 1000 2 i = Int.floor ((r + 1) * ((1000 : ℚ) * 2 ^ i) + 1 / 2) := by
  unfold createTimeout jsRound
  push_cast
  rw [max_eq_left (by norm_num : (1 : ℚ) ≤ 1000)]

/-- Bounds of one jittered timeout slot: with a `Math.random()` draw in
`[0, 1)` the rounded timeout of retry slot `i` lies between the nominal
`1000 * 2 ^ i` (draw 0, jitter factor 1) and twice that value. -/
lemma createTimeout_bounds (r : ℚ) (h0 : 0 ≤ r) (h1 : r < 1) (i : Nat) :
    (1000 * 2 ^ i : Int) ≤ createTimeout r 1000 2 i ∧
    createTimeout r 1000 2 i ≤ 2 * (1000 * 2 ^ i) := by
  have hb : (0 : ℚ) < 1000 * 2 ^ i := by positivity
  rw [createTimeout_eq]
  constructor
  · rw [Int.le_floor]
    push_cast
    nlinarith [mul_nonneg h0 (le_of_lt hb)]
  · have hlt : Int.floor ((r + 1) * ((1000 : ℚ) * 2 ^ i) + 1 / 2) < 2 * (1000 * 2 ^ i) + 1 := by
      rw [Int.floor_lt]
      push_cast
      nlinarith [mul_pos (by linarith : (0 : ℚ) < 2 - (r + 1)) hb]
    exact Int.lt_add_one_iff.mp hlt

/-- Transport environment for the C4 counterexample: every attempt fails
with a connection error, the sixth carrying a distinguishable message. -/
def c4Env : Nat → AxiosResult := fun k =>
  AxiosResult.rejectedNoResponse (if k = 6 then "last" else "earlier")

/-- C4 counterexample. With `retries: 5`, the `async-retry` configuration
at lines 77-81 allows one initial attempt plus five retries: when every
attempt fails transiently the transport client is invoked 6 times, not at
most 5 as the claim states (the final rejection does surface the last
attempt's error; zero jitter draws shown, the counts are
draw-independent). -/
theorem c4_six_attempts_not_five :
    (callGithub c4Env (fun _ => 0)).attemptsMade = 6 ∧
    ¬ (callGithub c4Env (fun _ => 0)).attemptsMade ≤ 5 ∧
    (callGithub c4Env (fun _ => 0)).result = CallResult.fatal "last" := by
  decide

/-- C4 (amended). For every transport environment and every choice of
jitter draws, the retry wrapper invokes the transport client at most 6
times in total (1 initial attempt plus `retries: 5`); and whenever the
draws lie in `Math.random()`'s range `[0, 1)` and all six attempts fail
retryably, exactly 6 invocations are made, the error surfaced is the last
attempt's, and the delay slept between consecutive attempts `k` and `k+1`
is the jittered `round((rand (k-1) + 1) * minDelay * factor ^ (k-1))`
(`minDelay = 1000`, `factor = 2`, and `randomize: true` by `async-retry`
default), each delay lying between the nominal `1000 * 2 ^ (k-1)` and
twice that value. -/
theorem c4_retry_cap_and_backoff (env : Nat → AxiosResult) (rand : Nat → ℚ)
    (m : Nat → String) :
    (callGithub env rand).attemptsMade ≤ 6 ∧
    ((∀ i, i < 5 → 0 ≤ rand i ∧ rand i < 1) →
      (∀ k, 1 ≤ k → k ≤ 6 → githubAttempt (env k) = AttemptOutcome.failErr (m k)) →
      (callGithub env rand).attemptsMade = 6 ∧
      (callGithub env rand).result = CallResult.fatal (m 6) ∧
      (callGithub env rand).delays =
        [ createTimeout (rand 0) 1000 2 0, createTimeout (rand 1) 1000 2 1
        , createTimeout (rand 2) 1000 2 2, createTimeout (rand 3) 1000 2 3
        , createTimeout (rand 4) 1000 2 4 ] ∧
      (∀ i, i < 5 →
        (1000 * 2 ^ i : Int) ≤ createTimeout (rand i) 1000 2 i ∧
        createTimeout (rand i) 1000 2 i ≤ 2 * (1000 * 2 ^ i))) := by
  constructor
  · have h := runRetry_attemptsMade_le (retryTimeouts rand 1000 2 5) 1
      [ githubAttempt (env 1), githubAttempt (env 2), githubAttempt (env 3)
      , githubAttempt (env 4), githubAttempt (env 5), githubAttempt (env 6) ]
    simpa [callGithub] using h
  · intro hr hfail
    have b0 := createTimeout_bounds (rand 0) (hr 0 (by omega)).1 (hr 0 (by omega)).2 0
    have b1 := createTimeout_bounds (rand 1) (hr 1 (by omega)).1 (hr 1 (by omega)).2 1
    have b2 := createTimeout_bounds (rand 2) (hr 2 (by omega)).1 (hr 2 (by omega)).2 2
    have b3 := createTimeout_bounds (rand 3) (hr 3 (by omega)).1 (hr 3 (by omega)).2 3
    have b4 := createTimeout_bounds (rand 4) (hr 4 (by omega)).1 (hr 4 (by omega)).2 4
    have hts : retryTimeouts rand 1000 2 5 =
        [ createTimeout (rand 0) 1000 2 0, createTimeout (rand 1) 1000 2 1
        , createTimeout (rand 2) 1000 2 2, createTimeout (rand 3) 1000 2 3
        , createTimeout (rand 4) 1000 2 4 ] := by
      have hsorted : List.Sorted (· ≤ ·)
          [ createTimeout (rand 0) 1000 2 0, createTimeout (rand 1) 1000 2 1
          , createTimeout (rand 2) 1000 2 2, createTimeout (rand 3) 1000 2 3
          , createTimeout (rand 4) 1000 2 4 ] := by
        norm_num at b0 b1 b2 b3 b4
        simp [List.sorted_cons]
        omega
      unfold retryTimeouts
      rw [show (List.range 5).map (fun i => createTimeout (rand i) 1000 2 i) =
          [ createTimeout (rand 0) 1000 2 0, createTimeout (rand 1) 1000 2 1
          , createTimeout (rand 2) 1000 2 2, createTimeout (rand 3) 1000 2 3
          , createTimeout (rand 4) 1000 2 4 ] from rfl]
      exact List.mergeSort_eq_self hsorted
    have e1 := hfail 1 (by omega) (by omega)
    have e2 := hfail 2 (by omega) (by omega)
    have e3 := hfail 3 (by omega) (by omega)
    have e4 := hfail 4 (by omega) (by omega)
    have e5 := hfail 5 (by omega) (by omega)
    have e6 := hfail 6 (by omega) (by omega)
    refine ⟨?_, ?_, ?_, ?_⟩
    · simp [callGithub, runRetry, e1, e2, e3, e4, e5, e6]
    · simp [callGithub, runRetry, e1, e2, e3, e4, e5, e6]
    · simp [callGithub, runRetry, e1, e2, e3, e4, e5, e6, hts]
    · intro i hi
      exact createTimeout_bounds (rand i) (hr i hi).1 (hr i hi).2 i

/-- Transport environment for the C4 witness: all six attempts time out. -/
def c4wEnv : Nat → AxiosResult := fun _ => AxiosResult.rejectedNoResponse "timeout"

/-- C4 witness: at the all-timeout environment with zero jitter draws
(`Math.random()` returning 0, so jitter factor exactly 1) the wrapper
makes 6 attempts, sleeps the nominal exponential schedule, and surfaces
the last error. -/
theorem c4_witness :
    (callGithub c4wEnv (fun _ => 0)).attemptsMade ≤ 6 ∧
    (callGithub c4wEnv (fun _ => 0)).attemptsMade = 6 ∧
    (callGithub c4wEnv (fun _ => 0)).result = CallResult.fatal "timeout" ∧
    (callGithub c4wEnv (fun _ => 0)).delays = [1000, 2000, 4000, 8000, 16000] := by
  have h := c4_retry_cap_and_backoff c4wEnv (fun _ => 0) (fun _ => "timeout")
  have h2 := h.2 (by intro i hi; norm_num) (by intro k h1 h6; rfl)
  refine ⟨h.1, h2.1, h2.2.1, ?_⟩
  rw [h2.2.2.1]
  have t0 : createTimeout 0 1000 2 0 = 1000 := by
    rw [createTimeout_eq, Int.floor_eq_iff]; norm_num
  have t1 : createTimeout 0 1000 2 1 = 2000 := by
    rw [createTimeout_eq, Int.floor_eq_iff]; norm_num
  have t2 : createTimeout 0 1000 2 2 = 4000 := by
    rw [createTimeout_eq, Int.floor_eq_iff]; norm_num
  have t3 : createTimeout 0 1000 2 3 = 8000 := by
    rw [createTimeout_eq, Int.floor_eq_iff]; norm_num
  have t4 : createTimeout 0 1000 2 4 = 16000 := by
    rw [createTimeout_eq, Int.floor_eq_iff]; norm_num
  rw [t0, t1, t2, t3, t4]

/-! ### C7: unauthorized failure aborts immediately -/

/-- C7. If the attempts before attempt `j` fail retryably and attempt `j`
is rejected with HTTP 401 (so the function bails), then the retry wrapper
makes exactly `j` attempts — none after the unauthorized one — surfaces
the fatal `Unauthorized - check token` error, incurs no backoff delay at
or after the bail (the `j - 1` delays all precede it), and the loop
iteration consuming that fatal result breaks the crawl at once without
sleeping. -/
theorem c7_unauthorized_aborts
    (env : Nat → AxiosResult) (rand : Nat → ℚ) (m : Nat → String) (msg : String) (j : Nat)
    (h1 : 1 ≤ j) (h6 : j ≤ 6)
    (hprev : ∀ k, 1 ≤ k → k < j → githubAttempt (env k) = AttemptOutcome.failErr (m k))
    (hbail : githubAttempt (env j) = AttemptOutcome.bailErr msg) :
    (callGithub env rand).attemptsMade = j ∧
    (callGithub env rand).result = CallResult.fatal msg ∧
    (callGithub env rand).delays.length = j - 1 ∧
    (∀ (s : CrawlState) (u : Bool) (n : Int),
      (stepIter s { resp := CallResult.fatal msg, upsertOk := u, now := n }).exit = true ∧
      (stepIter s { resp := CallResult.fatal msg, upsertOk := u, now := n }).sleeps = []) := by
  have hstep : ∀ (s : CrawlState) (u : Bool) (n : Int),
      (stepIter s { resp := CallResult.fatal msg, upsertOk := u, now := n }).exit = true ∧
      (stepIter s { resp := CallResult.fatal msg, upsertOk := u, now := n }).sleeps = [] := by
    intro s u n
    exact ⟨rfl, rfl⟩
  interval_cases j
  · refine ⟨?_, ?_, ?_, hstep⟩ <;>
      simp [callGithub, runRetry, hbail]
  · have e1 := hprev 1 (by omega) (by omega)
    refine ⟨?_, ?_, ?_, hstep⟩ <;>
      simp [callGithub, runRetry, e1, hbail]
  · have e1 := hprev 1 (by omega) (by omega)
    have e2 := hprev 2 (by omega) (by omega)
    refine ⟨?_, ?_, ?_, hstep⟩ <;>
      simp [callGithub, runRetry, e1, e2, hbail]
  · have e1 := hprev 1 (by omega) (by omega)
    have e2 := hprev 2 (by omega) (by omega)
    have e3 := hprev 3 (by omega) (by omega)
    refine ⟨?_, ?_, ?_, hstep⟩ <;>
      simp [callGithub, runRetry, e1, e2, e3, hbail]
  · have e1 := hprev 1 (by omega) (by omega)
    have e2 := hprev 2 (by omega) (by omega)
    have e3 := hprev 3 (by omega) (by omega)
    have e4 := hprev 4 (by omega) (by omega)
    refine ⟨?_, ?_, ?_, hstep⟩ <;>
      simp [callGithub, runRetry, e1, e2, e3, e4, hbail]
  · have e1 := hprev 1 (by omega) (by omega)
    have e2 := hprev 2 (by omega) (by omega)
    have e3 := hprev 3 (by omega) (by omega)
    have e4 := hprev 4 (by omega) (by omega)
    have e5 := hprev 5 (by omega) (by omega)
    refine ⟨?_, ?_, ?_, hstep⟩ <;>
      simp [callGithub, runRetry, e1, e2, e3, e4, e5, hbail]

/-- Transport environment for the C7 witness: the first attempt is
rejected with HTTP 401. -/
def c7Env : Nat → AxiosResult := fun k =>
  if k = 1 then AxiosResult.rejectedWithResponse 401 "Request failed with status code 401"
  else AxiosResult.rejectedNoResponse "t"

/-- C7 witness: with a 401 on the first attempt (and zero jitter draws)
the wrapper makes exactly one attempt, incurs no delay, surfaces the
fatal unauthorized error, and the loop iteration consuming it breaks
without sleeping. -/
theorem c7_witness :
    (callGithub c7Env (fun _ => 0)).attemptsMade = 1 ∧
    (callGithub c7Env (fun _ => 0)).result = CallResult.fatal "Unauthorized - check token" ∧
    (callGithub c7Env (fun _ => 0)).delays.length = 0 ∧
    (stepIter { collected := 0, after := none, page := 0 }
      { resp := CallResult.fatal "Unauthorized - check token", upsertOk := true, now := 0 }).exit
      = true := by
  have h := c7_unauthorized_aborts c7Env (fun _ => 0) (fun _ => "")
    "Unauthorized - check token" 1
    (by omega) (by omega)
    (by intro k hk1 hk2; omega)
    (by rfl)
  exact ⟨h.1, h.2.1, by rw [h.2.2.1], (h.2.2.2 { collected := 0, after := none, page := 0 } true 0).1⟩

/-! ### C8: overshoot bound when the target is reached -/

/-- One page processing step grows `collected` by at most the edge count,
which the remote contract bounds by `PAGE_SIZE`. -/
lemma processSearch_collected_le (s : CrawlState) (d : GqlData) (u : Bool)
    (hb : ∀ sr, d.search = some sr → sr.edges.length ≤ PAGE_SIZE) :
    (processSearch s d u).state.collected ≤ s.collected + PAGE_SIZE := by
  cases hs : d.search with
  | none => simp [processSearch, hs, PAGE_SIZE]
  | some sr =>
    have hlen := hb sr hs
    cases he : sr.edges with
    | nil => simp [processSearch, hs, he, PAGE_SIZE]
    | cons a l =>
      rw [he] at hlen
      simp only [List.length_cons] at hlen
      simp only [processSearch, hs, he]
      split
      · cases u <;> simp
        omega
      · split
        · cases u <;> simp
          omega
        · cases u <;> simp
          omega

/-- One loop iteration grows `collected` by at most `PAGE_SIZE`. -/
lemma stepIter_collected_le (s : CrawlState) (e : IterEnv) (hb : pageBounded e) :
    (stepIter s e).state.collected ≤ s.collected + PAGE_SIZE := by
  cases hr : e.resp with
  | fatal msg => simp [stepIter, hr]
  | ok body =>
    cases herr : body.errors with
    | true => simp [stepIter, hr, herr]
    | false =>
      have hb2 : ∀ sr, body.data.search = some sr → sr.edges.length ≤ PAGE_SIZE :=
        fun sr hs => hb body sr hr hs
      cases hopt : body.data.rateLimit with
      | none =>
        simp only [stepIter, hr, herr, hopt, Bool.false_eq_true, if_false]
        exact processSearch_collected_le _ _ _ hb2
      | some rl =>
        by_cases hlow : rl.remaining ≤ 10
        · simp [stepIter, hr, herr, hopt, hlow]
        · simp only [stepIter, hr, herr, hopt, hlow, Bool.false_eq_true, if_false]
          exact processSearch_collected_le _ _ _ hb2

/-- A loop started at or above the target returns at once with the state
unchanged and exit kind `targetReached`. -/
lemma runLoop_of_target_le (target : Nat) (s : CrawlState) (env : List IterEnv)
    (h : target ≤ s.collected) :
    runLoop target s env = { state := s, exit := RunExit.targetReached } := by
  cases env <;> simp [runLoop, Nat.not_lt.mpr h]

/-- A loop run that ends with `targetReached` ends at or above the target. -/
lemma runLoop_targetReached_ge (target : Nat) :
    ∀ (env : List IterEnv) (s s' : CrawlState),
      runLoop target s env = { state := s', exit := RunExit.targetReached } →
      target ≤ s'.collected := by
  intro env
  induction env with
  | nil =>
    intro s s' h
    by_cases hc : s.collected < target
    · simp [runLoop, hc] at h
    · simp only [runLoop, if_neg hc] at h
      injection h with h1 h2
      rw [← h1]
      omega
  | cons e es ih =>
    intro s s' h
    by_cases hc : s.collected < target
    · simp only [runLoop, if_pos hc] at h
      by_cases hex : (stepIter s e).exit
      · simp [hex] at h
      · simp [hex] at h
        exact ih _ _ h
    · simp only [runLoop, if_neg hc] at h
      injection h with h1 h2
      rw [← h1]
      omega

/-- A loop run started strictly below the target, over a page-bounded
trace, ends strictly below `target + PAGE_SIZE` whenever it ends with
`targetReached`. -/
lemma runLoop_targetReached_lt (target : Nat) :
    ∀ (env : List IterEnv) (s s' : CrawlState),
      (∀ e ∈ env, pageBounded e) → s.collected < target →
      runLoop target s env = { state := s', exit := RunExit.targetReached } →
      s'.collected < target + PAGE_SIZE := by
  intro env
  induction env with
  | nil =>
    intro s s' hb hlt h
    simp [runLoop, hlt] at h
  | cons e es ih =>
    intro s s' hb hlt h
    simp only [runLoop, if_pos hlt] at h
    by_cases hex : (stepIter s e).exit
    · simp [hex] at h
    · simp only [hex, Bool.false_eq_true, if_false] at h
      have hstep := stepIter_collected_le s e (hb e (by simp))
      by_cases h2 : (stepIter s e).state.collected < target
      · exact ih _ _ (fun x hx => hb x (by simp [hx])) h2 h
      · rw [runLoop_of_target_le target _ es (by omega)] at h
        injection h with hss hex2
        have hcol : (stepIter s e).state.collected = s'.collected := by rw [hss]
        omega

/-- C8. In every run that terminates because the `while` condition
`collected < TARGET_REPOS` became false (the target was reached), and in
which every page respects the remote bound of at most `PAGE_SIZE = 100`
records, the final collected count `c` satisfies
`target <= c < target + PAGE_SIZE`: the condition is checked only before a
request, so a full final page can overshoot the target by up to 99
records, never more. -/
theorem c8_target_overshoot_bound (target : Nat) (env : List IterEnv)
    (hb : ∀ e ∈ env, pageBounded e) (s' : CrawlState)
    (h : runLoop target { collected := 0, after := none, page := 0 } env =
      { state := s', exit := RunExit.targetReached }) :
    target ≤ s'.collected ∧ s'.collected < target + PAGE_SIZE := by
  refine ⟨runLoop_targetReached_ge target env _ s' h, ?_⟩
  by_cases h0 : 0 < target
  · exact runLoop_targetReached_lt target env _ s' hb h0 h
  · have ht : target = 0 := by omega
    subst ht
    rw [runLoop_of_target_le 0 _ env (by simp)] at h
    have hss : ({ collected := 0, after := none, page := 0 } : CrawlState) = s' := by
      cases h
      rfl
    rw [← hss]
    simp [PAGE_SIZE]

/-- Iteration environment for the C8 witness: one clean page with a single
record and a live next cursor. -/
def c8Iter : IterEnv :=
  { resp := CallResult.ok
      { errors := false
      , data :=
        { rateLimit := some { limit := 5000, cost := 1, remaining := 4999, resetAt := 0 }
        , search := some (
          { repositoryCount := 1
          , pageInfo := { endCursor := some "B", hasNextPage := true }
          , edges := [{ node :=
              { id := "n8", databaseId := some 8, name := "r8", url := "u8"
              , stargazerCount := some 1, owner := some { login := "o8" } } }] } : Search) } }
  , upsertOk := true
  , now := 0 }

/-- C8 witness: with target 1 and one full single-record page the run ends
with `targetReached` and the collected count 1 satisfies
`1 <= 1 < 1 + PAGE_SIZE`. -/
theorem c8_witness :
    (1 : Nat) ≤ 1 ∧ (1 : Nat) < 1 + PAGE_SIZE :=
  c8_target_overshoot_bound 1 [c8Iter]
    (by
      intro e he
      simp only [List.mem_singleton] at he
      subst he
      intro body sr hresp hsr
      simp only [c8Iter] at hresp
      injection hresp with hresp
      rw [← hresp] at hsr
      simp only [Option.some.injEq] at hsr
      rw [← hsr]
      decide)
    { collected := 1, after := some "B", page := 1 }
    (by decide)

end Crawler
